import Mathlib

/-!
Verification development for the ObliQ idea-validation front end.

The definitions below are a shallow embedding of the core scoring pipeline of
`src/services/openrouterService.ts` (validateIdeaQuality, calculateBalancedScore,
makeAPICall, processIdeaWithAI, fallbackProcessing and their helpers) and of
`src/services/clusteringService.ts` (findClusters).

Modelling conventions:
* JS strings are Lean `String`s; character-level work happens on `String.data`
  (`List Char`).  All modelled inputs are ASCII, so the ASCII versions of
  `toLowerCase`, `trim` and `\s` are faithful.
* JS regular expression `test` calls are embedded as decidable Boolean
  functions.  A pattern of the shape `a.*b.*c` (literals separated by `.*`)
  holds of a string iff some line-terminator-free segment of the string
  contains the literals in order (JS `.` does not match line terminators);
  this is decided by a greedy scan that repeatedly takes the alternative
  occurrence with the least end position, which is complete because the least
  end position leaves the longest possible suffix for the remaining literals.
* `Math.random()`-based draws are modelled by explicit `Nat` parameters:
  `Math.floor(Math.random() * 13) + 3` becomes `rand % 13 + 3`.
* The network (`fetch`) and the host JSON parser (`JSON.parse`) are external
  collaborators; they enter as oracle parameters (`NetResponse`,
  `parse : String → Option …`).  Host-generated `crypto.randomUUID()` ids and
  `new Date()` timestamps are omitted from the modelled records.
* JS number arithmetic on the integer-valued scores is embedded as `Int`
  arithmetic; the only fractional quantity, `avgWordLength`, occurs solely in
  the comparisons `< 2` and `< 1.5`, which are embedded by cross-multiplying
  with the (positive) word count.
-/

/-! ## Character and string primitives (JS semantics, ASCII fragment) -/

/-- JS `\s` (and `String.prototype.trim`) whitespace, ASCII fragment. -/
def jsSpace (c : Char) : Bool :=
  c = ' ' || c = '\t' || c = '\n' || c = '\r' || c = Char.ofNat 11 || c = Char.ofNat 12

/-- JS line terminators, which `.` does not match: LF, CR, LS, PS. -/
def isLineTerm (c : Char) : Bool :=
  c = '\n' || c = '\r' || c = Char.ofNat 0x2028 || c = Char.ofNat 0x2029

/-- ASCII `toLowerCase` on one character. -/
def toLowerChar (c : Char) : Char :=
  if 'A' ≤ c ∧ c ≤ 'Z' then Char.ofNat (c.toNat + 32) else c

/-- Embeds `String.prototype.toLowerCase`, ASCII fragment. -/
def jsToLower (s : List Char) : List Char := s.map toLowerChar

/-- Embeds `String.prototype.trim`. -/
def jsTrim (s : List Char) : List Char :=
  ((s.dropWhile jsSpace).reverse.dropWhile jsSpace).reverse

/-- Every suffix test: does some suffix of `s` satisfy `p`? -/
def existsSuffix (p : List Char → Bool) : List Char → Bool
  | [] => p []
  | c :: cs => p (c :: cs) || existsSuffix p cs

/-- Embeds `String.prototype.includes needle` as a scan over suffixes. -/
def containsSub (needle : List Char) (hay : List Char) : Bool :=
  existsSuffix (fun s => needle.isPrefixOf s) hay

/-- Embeds `String.prototype.split(sep)` for a single-character separator:
every occurrence splits, empty fragments are kept. -/
def splitChar (sep : Char) : List Char → List Char → List (List Char)
  | [], acc => [acc.reverse]
  | x :: xs, acc =>
    if x = sep then acc.reverse :: splitChar sep xs []
    else splitChar sep xs (x :: acc)

/-- Worker for `splitRuns`: `inRun` records whether the previous character
belonged to the current separator run (so that a whole run makes a single
split point), `acc` is the reversed current fragment. -/
def splitRunsF (p : Char → Bool) : List Char → Bool → List Char → List (List Char)
  | [], _, acc => [acc.reverse]
  | x :: xs, inRun, acc =>
    if p x then
      if inRun then splitRunsF p xs true []
      else acc.reverse :: splitRunsF p xs true []
    else splitRunsF p xs false (x :: acc)

/-- Embeds `String.prototype.split` against a regex of shape `[…]+`: a maximal run of
separator characters is one split point; empty leading/trailing fragments are
kept, exactly as in JS. -/
def splitRuns (p : Char → Bool) (l : List Char) : List (List Char) :=
  splitRunsF p l false []

/-- First index (if any) at which `c` occurs. -/
def firstIdx (c : Char) (s : List Char) : Option Nat :=
  s.findIdx? (fun x => x = c)

/-- Last index (if any) at which `c` occurs. -/
def lastIdx (c : Char) (s : List Char) : Option Nat :=
  match firstIdx c s.reverse with
  | none => none
  | some i => some (s.length - 1 - i)

/-! ## Greedy matcher for `lit₁.*lit₂.*…` regex tests

A pattern is a list of groups; each group is a list of literal alternatives
(embedding `(?:a|b|c)`).  `minEnd` finds the least end position of any
alternative occurrence, `seqMatchOn` consumes the groups greedily. -/

/-- Least end position over all occurrences of all alternatives of one group. -/
def minEnd (alts : List (List Char)) (s : List Char) : Option Nat :=
  ((List.range (s.length + 1)).flatMap
    (fun i => alts.filterMap
      (fun a => if a.isPrefixOf (s.drop i) then some (i + a.length) else none))).min?

/-- Greedy in-order matcher for literal groups separated by `.*`. -/
def seqMatchOn : List (List (List Char)) → List Char → Bool
  | [], _ => true
  | g :: gs, s =>
    match minEnd g s with
    | none => false
    | some e => seqMatchOn gs (s.drop e)

/-- A `lit₁.*lit₂.*…` test over a whole string: JS `.` does not cross line
terminators, so the pattern holds iff it holds on some terminator-free
segment. -/
def dotStarTest (groups : List (List (List Char))) (text : List Char) : Bool :=
  (splitRuns isLineTerm text).any (fun line => seqMatchOn groups line)

/-- Embeds `(.)\1{k-1,}`: a run of at least `k` identical characters, none of which is
a line terminator (JS `.` cannot match one). -/
def hasRunOf (k : Nat) : List Char → Bool
  | [] => false
  | c :: cs =>
    (!(isLineTerm c) && decide (k ≤ (cs.takeWhile (fun x => x = c)).length + 1))
      || hasRunOf k cs

/-! ## Pattern tables of `validateIdeaQuality` (openrouterService.ts, step 1–3) -/

/-- One `.*`-separated pattern given by its literal groups. -/
def lit (w : String) : List (List Char) := [w.data]

/-- Embeds `nonsensicalPatterns` (step 1), minus the pure-repetition pattern
`(.)\1{6,}` which is handled by `hasRunOf 7`. -/
def nonsensicalSeqPatterns : List (List (List (List Char))) :=
  [ [lit "buy", lit "high", lit "sell", lit "low"],
    [lit "purchase", lit "expensive", lit "sell", lit "cheap"],
    [lit "lose", lit "money", lit "intentionally"],
    [lit "guaranteed", lit "loss"],
    [lit "negative", lit "profit", lit "always"],
    [lit "burn", lit "money", lit "purpose"],
    [lit "free", lit "everything", lit "forever"],
    [lit "infinite", lit "money", lit "no", lit "work"],
    [lit "time", lit "travel", lit "business"],
    [lit "perpetual", lit "motion", lit "machine"],
    [lit "qwerty", lit "asdf", lit "zxcv"],
    [lit "123456789", lit "abcdefgh"],
    [lit "random", lit "gibberish", lit "test", lit "test"] ]

/-- Step 1: `nonsensicalPatterns.some(pattern => pattern.test(text))`. -/
def nonsensicalMatch (text : List Char) : Bool :=
  nonsensicalSeqPatterns.any (fun g => dotStarTest g text) || hasRunOf 7 text

/-- The `(?:restaurant|bakery|cafe|shop|store|salon|gym|clinic)` alternation. -/
def shopWords : List (List Char) :=
  ["restaurant".data, "bakery".data, "cafe".data, "shop".data, "store".data,
   "salon".data, "gym".data, "clinic".data]

/-- The `(?:help|solve|manage|organize|connect)` alternation. -/
def helpWords : List (List Char) :=
  ["help".data, "solve".data, "manage".data, "organize".data, "connect".data]

/-- Embeds `legitimateBusinessPatterns` (step 2). -/
def legitimateBusinessPatterns : List (List (List (List Char))) :=
  [ [lit "start", shopWords],
    [lit "open", shopWords],
    [shopWords, lit "business"],
    [lit "consulting", lit "service"],
    [lit "cleaning", lit "service"],
    [lit "delivery", lit "service"],
    [lit "tutoring", lit "service"],
    [lit "repair", lit "service"],
    [lit "app", helpWords],
    [lit "platform", helpWords],
    [lit "website", helpWords],
    [lit "software", helpWords],
    [lit "online", ["store".data, "shop".data, "marketplace".data]],
    [lit "sell", ["products".data, "services".data], lit "online"],
    [lit "e-commerce", ["platform".data, "store".data]],
    [lit "online", ["course".data, "training".data, "education".data]],
    [lit "teach", ["people".data, "students".data, "professionals".data]],
    [lit "learning", lit "platform"] ]

/-- Step 2: `legitimateBusinessPatterns.some(pattern => pattern.test(text))`. -/
def legitimateMatch (text : List Char) : Bool :=
  legitimateBusinessPatterns.any (fun g => dotStarTest g text)

/-- The city alternation of `locationPatterns`. -/
def cityWords : List (List Char) :=
  ["islamabad".data, "karachi".data, "lahore".data, "delhi".data, "mumbai".data,
   "bangalore".data, "london".data, "new york".data, "dubai".data,
   "singapore".data, "toronto".data, "sydney".data]

/-- Embeds `in\s+(?:city…)` at the head of a suffix: literal `in`, one or more JS
whitespace characters, then a city name.  Skipping the whole whitespace run is
complete because no city name begins with whitespace. -/
def inCityAt (s : List Char) : Bool :=
  match s with
  | 'i' :: 'n' :: c :: t =>
    jsSpace c && cityWords.any (fun city => city.isPrefixOf ((c :: t).dropWhile jsSpace))
  | _ => false

/-- Step 3: `locationPatterns.some(pattern => pattern.test(text))`. -/
def locationMatch (text : List Char) : Bool :=
  existsSuffix inCityAt text
    || dotStarTest [cityWords, ["area".data, "city".data, "market".data]] text

/-! ## Word lists (steps 5–6) -/

def businessIndicators : List String :=
  ["customer", "market", "sell", "buy", "service", "product",
   "revenue", "profit", "business", "startup", "company",
   "people", "help", "solve", "need", "want", "provide"]

def problemWords : List String :=
  ["problem", "issue", "difficult", "hard", "frustrating", "need", "want", "lack"]

def solutionWords : List String :=
  ["solve", "help", "provide", "offer", "create", "build", "make"]

def hasBusinessContext (text : List Char) : Bool :=
  businessIndicators.any (fun w => containsSub w.data text)

def hasProblem (text : List Char) : Bool :=
  problemWords.any (fun w => containsSub w.data text)

def hasSolution (text : List Char) : Bool :=
  solutionWords.any (fun w => containsSub w.data text)

/-! ## validateIdeaQuality -/

/-- The verdict record returned by `OpenRouterService.validateIdeaQuality`. -/
structure QualityVerdict where
  isValid : Bool
  issues : List String
  qualityScore : Int
  isNonsensical : Bool
  isLegitimate : Bool
deriving Repr, DecidableEq

/-- Embeds `input.toLowerCase().trim()`. -/
def processedText (input : String) : List Char := jsTrim (jsToLower input.data)

/-- Sentence delimiters `[.!?]`. -/
def isSentDelim (c : Char) : Bool := c = '.' || c = '!' || c = '?'

/-- Embeds `text.split(/[.!?]+/).filter(s => s.trim().length > 0)`. -/
def sentencesOf (text : List Char) : List (List Char) :=
  (splitRuns isSentDelim text).filter (fun s => (jsTrim s).length > 0)

/-- Step 4b: `sentences.length >= 1 && sentences[0].split(' ').length >= 4`. -/
def coherentSentence (text : List Char) : Bool :=
  match sentencesOf text with
  | [] => false
  | s :: _ => decide (4 ≤ (splitChar ' ' s []).length)

/-- Embeds `text.replace(/\s/g, '').length`. -/
def nonspaceLen (text : List Char) : Nat := (text.filter (fun c => !jsSpace c)).length

/-- Embeds `text.split(/\s+/).length` (on already-trimmed text; the empty string
splits to `[""]`, length 1, as in JS). -/
def wordCountJs (text : List Char) : Nat := (splitRuns jsSpace text).length

/-- Embeds `avgWordLength < 2`, i.e. `nonspaceLen / wordCount < 2`, cross-multiplied
(the word count is always positive). -/
def avgWordLenLt2 (text : List Char) : Bool :=
  decide (nonspaceLen text < 2 * wordCountJs text)

/-- Embeds `avgWordLength < 1.5`, cross-multiplied by `2 * wordCount`. -/
def avgWordLenLt3Halves (text : List Char) : Bool :=
  decide (2 * nonspaceLen text < 3 * wordCountJs text)

/-- Step 7 guard: `hasExcessiveRepeats || avgWordLength < 2`
(`hasExcessiveRepeats` is `/(.)\1{5,}/`, a run of six). -/
def gibberishFlag (text : List Char) : Bool :=
  hasRunOf 6 text || avgWordLenLt2 text

/-- Step 7 inner branch: `isNonsensical` is set exactly when the gibberish
guard fired and additionally `avgWordLength < 1.5`. -/
def step7Nonsens (text : List Char) : Bool :=
  gibberishFlag text && avgWordLenLt3Halves text

/-- Steps 2–6: the accumulated score before the step 7 gibberish branch
(sequential `qualityScore` mutations, written as one sum). -/
def baseScore (text : List Char) : Int :=
  50 + (if legitimateMatch text then 20 else 0)
     + (if locationMatch text then 15 else 0)
     + (if text.length < 10 then -25 else if 30 < text.length then 10 else 0)
     + (if coherentSentence text then 10 else 0)
     + (if hasBusinessContext text then 10 else 0)
     + (if hasProblem text && hasSolution text then 15 else 0)

/-- Step 7: `qualityScore -= 30`, then `qualityScore = 8` if the average word
length is below 1.5. -/
def scoreAfterGibberish (text : List Char) : Int :=
  if gibberishFlag text then
    if avgWordLenLt3Halves text then 8 else baseScore text - 30
  else baseScore text

/-- Embeds `isLegitimate` after steps 2–3 (a legitimate pattern or a location hit). -/
def legitFlag (text : List Char) : Bool :=
  legitimateMatch text || locationMatch text

/-- Embeds `text.includes('bakery') || text.includes('restaurant') || text.includes('cafe')`. -/
def foodBusiness (text : List Char) : Bool :=
  containsSub "bakery".data text || containsSub "restaurant".data text
    || containsSub "cafe".data text

/-- Step 8 boost: legitimate, non-nonsensical ideas are floored at 55
(65 for food businesses). -/
def scoreAfterLegitBoost (text : List Char) : Int :=
  if legitFlag text && !step7Nonsens text then
    if foodBusiness text then max (max (scoreAfterGibberish text) 55) 65
    else max (scoreAfterGibberish text) 55
  else scoreAfterGibberish text

/-- Step 8 final bounds: nonsensical ≤ 15, legitimate in [55, 85],
otherwise in [15, 75]. -/
def finalQualityScore (text : List Char) : Int :=
  if step7Nonsens text then min (scoreAfterLegitBoost text) 15
  else if legitFlag text then max 55 (min 85 (scoreAfterLegitBoost text))
  else max 15 (min 75 (scoreAfterLegitBoost text))

/-- The `issues` list accumulated on the non-short-circuit path. -/
def issuesOf (text : List Char) : List String :=
  (if text.length < 10 then ["Idea is too short and lacks detail"] else [])
    ++ (if gibberishFlag text then ["Input appears to contain gibberish"] else [])

/-- Embeds `OpenRouterService.validateIdeaQuality`.  `rand` models the single
`Math.floor(Math.random() * 13)` draw of the step 1 short-circuit. -/
def validateIdeaQuality (input : String) (rand : Nat) : QualityVerdict :=
  let text := processedText input
  if nonsensicalMatch text then
    { isValid := false,
      issues := ["This appears to be a fundamentally flawed or nonsensical business concept"],
      qualityScore := (rand % 13 : Nat) + 3,
      isNonsensical := true,
      isLegitimate := false }
  else
    { isValid := decide (25 ≤ finalQualityScore text) && !step7Nonsens text,
      issues := issuesOf text,
      qualityScore := finalQualityScore text,
      isNonsensical := step7Nonsens text,
      isLegitimate := legitFlag text }

/-! ## External assessment (the untrusted parsed LLM response) -/

/-- The `businessAssessment` object of the parsed response; every field is
untrusted and may be absent. -/
structure BusinessAssessment where
  legitimacy : Option String := none
  marketDemand : Option String := none
  competitionLevel : Option String := none
  implementationDifficulty : Option String := none
  profitabilityPotential : Option String := none
  overallViability : Option String := none
deriving Repr, DecidableEq

/-- One entry of the parsed response's `suggestions` array. -/
structure ParsedSuggestion where
  type : Option String := none
  content : Option String := none
deriving Repr, DecidableEq

/-- The whole parsed LLM response (`parsedResponse` in `processIdeaWithAI`):
loosely typed, every field optional.  An `Option (List …)` field is `some`
exactly when the JS value passes `Array.isArray`. -/
structure ExternalAssessment where
  title : Option String := none
  description : Option String := none
  category : Option String := none
  tags : Option (List String) := none
  painPoints : Option (List String) := none
  features : Option (List String) := none
  userPersonas : Option (List String) := none
  businessAssessment : Option BusinessAssessment := none
  suggestions : Option (List ParsedSuggestion) := none
deriving Repr, DecidableEq

/-! ## calculateBalancedScore (the score reconciler) -/

/-- Embeds `text.includes('bakery') || … 'restaurant' || … 'cafe' || … 'shop'`
(the proven-model boost of `calculateBalancedScore`). -/
def provenModelBusiness (text : List Char) : Bool :=
  containsSub "bakery".data text || containsSub "restaurant".data text
    || containsSub "cafe".data text || containsSub "shop".data text

/-- The four sequential adjustments keyed off `aiResponse.businessAssessment`. -/
def assessmentAdjust (a : BusinessAssessment) (score : Int) : Int :=
  let score := if a.legitimacy = some "legitimate" then max score 55
    else if a.legitimacy = some "nonsensical" then min score 15
    else score
  let score := if a.marketDemand = some "high" then score + 10
    else if a.marketDemand = some "nonexistent" then score - 20
    else score
  let score := if a.profitabilityPotential = some "high" then score + 8
    else if a.profitabilityPotential = some "impossible" then min score 10
    else score
  if a.overallViability = some "excellent" then score + 10
  else if a.overallViability = some "terrible" then min score 15
  else score

/-- Embeds `OpenRouterService.calculateBalancedScore`. -/
def calculateBalancedScore (aiResponse : ExternalAssessment) (validation : QualityVerdict)
    (originalInput : String) : Int :=
  let text := jsToLower originalInput.data
  if validation.isNonsensical then min 15 validation.qualityScore
  else
    let score := validation.qualityScore
    let score := if validation.isLegitimate then
        (if provenModelBusiness text then max (max score 55) 65 else max score 55)
      else score
    let score := match aiResponse.businessAssessment with
      | none => score
      | some a => assessmentAdjust a score
    let score := if 0 < validation.issues.length && !validation.isLegitimate then
        score - (validation.issues.length : Int) * 5
      else score
    if validation.isNonsensical then max 3 (min 15 score)
    else if validation.isLegitimate then max 55 (min 85 score)
    else max 20 (min 75 score)

/-! ## The external call boundary (makeAPICall) -/

/-- Outcome of the single `fetch` to the provider, as observed by
`makeAPICall`: HTTP status plus the extracted
`data.choices[0]?.message?.content` (absent fields default to `''`). -/
structure NetResponse where
  ok : Bool
  status : Nat
  content : Option String
deriving Repr, DecidableEq

/-- The error taxonomy thrown by `makeAPICall`: the two pre-network
configuration checks, then the status-code dependent request failures. -/
inductive ApiError where
  | missingKey
  | invalidKeyFormat
  | authFailed
  | rateLimited
  | requestFailed (status : Nat)
deriving Repr, DecidableEq

/-- The configuration subclass of the error taxonomy (missing / malformed
API key). -/
def ApiError.isConfigurationError : ApiError → Bool
  | .missingKey => true
  | .invalidKeyFormat => true
  | _ => false

/-- Embeds `OpenRouterService.makeAPICall`.  The API key is the configured
`VITE_OPENROUTER_API_KEY` (the empty string models an unset variable, which is
falsy in JS); `net` is the opaque network collaborator.  The request payload
(prompt) is absorbed into the `net` oracle. -/
def makeAPICall (apiKey : String) (net : NetResponse) : Except ApiError String :=
  if apiKey = "" then .error .missingKey
  else if !("sk-or-v1-".data.isPrefixOf apiKey.data) then .error .invalidKeyFormat
  else if !net.ok then
    if net.status = 401 then .error .authFailed
    else if net.status = 429 then .error .rateLimited
    else .error (.requestFailed net.status)
  else .ok (net.content.getD "")

/-! ## Local helpers of the structuring / fallback path -/

/-- Embeds `OpenRouterService.validateCategory`. -/
def validateCategory (category : Option String) : Option String :=
  match category with
  | some c =>
    if ["tech", "business", "social", "education", "health",
        "entertainment", "other"].contains c then some c else none
  | none => none

/-- Embeds `OpenRouterService.categorizeIdea`. -/
def categorizeIdea (input : String) : String :=
  let text := jsToLower input.data
  if containsSub "app".data text || containsSub "software".data text
      || containsSub "ai".data text || containsSub "tech".data text then "tech"
  else if containsSub "business".data text || containsSub "startup".data text
      || containsSub "money".data text || containsSub "revenue".data text
      || containsSub "bakery".data text || containsSub "restaurant".data text
      || containsSub "shop".data text || containsSub "store".data text then "business"
  else if containsSub "social".data text || containsSub "community".data text
      || containsSub "people".data text || containsSub "connect".data text then "social"
  else if containsSub "learn".data text || containsSub "teach".data text
      || containsSub "education".data text || containsSub "school".data text then "education"
  else if containsSub "health".data text || containsSub "fitness".data text
      || containsSub "medical".data text || containsSub "wellness".data text then "health"
  else if containsSub "game".data text || containsSub "fun".data text
      || containsSub "entertainment".data text || containsSub "music".data text then "entertainment"
  else "other"

/-- Embeds `OpenRouterService.extractTitle`:
`sentences[0]?.trim().slice(0, 60) || 'Business Concept'`. -/
def extractTitle (input : String) : String :=
  match sentencesOf input.data with
  | [] => "Business Concept"
  | s :: _ =>
    let t := jsTrim s
    if t.isEmpty then "Business Concept" else String.mk (t.take 60)

/-- The `tagMap` of `generateSmartTags`, in `Object.entries` (insertion)
order. -/
def tagMap : List (String × List String) :=
  [("food-service", ["bakery", "restaurant", "cafe", "food"]),
   ("retail", ["shop", "store", "sell", "products"]),
   ("local-business", ["islamabad", "karachi", "lahore", "local"]),
   ("mobile", ["mobile", "app", "phone"]),
   ("web", ["website", "web", "browser"]),
   ("ai", ["ai", "artificial intelligence", "machine learning"]),
   ("social", ["social", "community", "network"]),
   ("service", ["service", "help", "provide"])]

/-- Embeds `OpenRouterService.generateSmartTags`. -/
def generateSmartTags (input : String) : List String :=
  let text := jsToLower input.data
  ((tagMap.filter (fun e => e.2.any (fun k => containsSub k.data text))).map
    (fun e => e.1)).take 5

/-- Embeds `OpenRouterService.extractPainPoints`. -/
def extractPainPoints (input : String) : List String :=
  let text := jsToLower input.data
  if containsSub "bakery".data text || containsSub "restaurant".data text
      || containsSub "cafe".data text then
    ["People need fresh, quality baked goods",
     "Limited options for local bakery products",
     "Demand for convenient food options"]
  else
    let painIndicators : List String :=
      ["problem", "issue", "difficult", "hard", "frustrating", "need", "lack"]
    let painPoints := (sentencesOf input.data).filter
      (fun s => painIndicators.any (fun ind => containsSub ind.data (jsToLower s)))
    if 0 < painPoints.length then (painPoints.map String.mk).take 4
    else ["Customer needs identification required",
          "Market pain points need research"]

/-- Embeds `OpenRouterService.extractFeatures`. -/
def extractFeatures (input : String) : List String :=
  let text := jsToLower input.data
  if containsSub "bakery".data text then
    ["Fresh daily baked goods", "Custom cake orders", "Local delivery service",
     "Quality ingredients", "Competitive pricing"]
  else if containsSub "restaurant".data text || containsSub "cafe".data text then
    ["Quality food preparation", "Comfortable dining environment",
     "Efficient service", "Menu variety", "Customer loyalty program"]
  else
    let featureIndicators : List String :=
      ["feature", "function", "allow", "enable", "provide", "offer"]
    let features := (sentencesOf input.data).filter
      (fun s => featureIndicators.any (fun ind => containsSub ind.data (jsToLower s)))
    if 0 < features.length then (features.map String.mk).take 5
    else ["Core functionality needs definition",
          "Key features require specification"]

/-- Embeds `OpenRouterService.extractUserPersonas`. -/
def extractUserPersonas (input : String) : List String :=
  let text := jsToLower input.data
  if containsSub "bakery".data text then
    ["Local residents seeking fresh baked goods",
     "Families needing celebration cakes",
     "Office workers wanting quick breakfast items"]
  else if containsSub "restaurant".data text || containsSub "cafe".data text then
    ["Local diners seeking quality meals",
     "Business professionals for lunch meetings",
     "Families for casual dining"]
  else
    let personas :=
      (if containsSub "student".data text || containsSub "learn".data text then
        ["Students and learners"] else [])
      ++ (if containsSub "business".data text || containsSub "professional".data text then
        ["Business professionals"] else [])
      ++ (if containsSub "local".data text || containsSub "community".data text then
        ["Local community members"] else [])
    if 0 < personas.length then personas.take 3
    else ["Target customers need identification"]

/-! ## Constant analysis records -/

structure MarketAnalysis where
  size : String
  growth : String
  trends : List String
  competitors : List String
  opportunities : List String
  threats : List String
deriving Repr, DecidableEq

structure TechnicalFeasibility where
  score : Int
  challenges : List String
  requirements : List String
deriving Repr, DecidableEq

structure FinancialFeasibility where
  score : Int
  estimatedCost : String
  revenueModel : List String
  fundingNeeds : String
deriving Repr, DecidableEq

structure MarketFeasibility where
  score : Int
  demand : String
  competition : String
  barriers : List String
deriving Repr, DecidableEq

structure FeasibilityAnalysis where
  technical : TechnicalFeasibility
  financial : FinancialFeasibility
  market : MarketFeasibility
deriving Repr, DecidableEq

/-- Embeds `OpenRouterService.processMarketAnalysisFromResponse` (ignores its
argument and returns a constant record). -/
def processMarketAnalysisFromResponse : MarketAnalysis :=
  { size := "Market analysis needed",
    growth := "Growth potential to be determined",
    trends := ["Market research required"],
    competitors := ["Competitive analysis needed"],
    opportunities := ["Opportunities assessment needed"],
    threats := ["Risk analysis needed"] }

/-- Embeds `OpenRouterService.processFeasibilityAnalysisFromResponse` (ignores its
argument and returns a constant record). -/
def processFeasibilityAnalysisFromResponse : FeasibilityAnalysis :=
  { technical := { score := 50,
                   challenges := ["Technical assessment needed"],
                   requirements := ["Requirements analysis needed"] },
    financial := { score := 45,
                   estimatedCost := "Cost analysis needed",
                   revenueModel := ["Revenue model needs development"],
                   fundingNeeds := "Funding requirements to be determined" },
    market := { score := 50,
                demand := "Market demand needs validation",
                competition := "Competitive landscape analysis needed",
                barriers := ["Market barriers assessment needed"] } }

/-- Embeds `OpenRouterService.generateFallbackMarketAnalysis`. -/
def generateFallbackMarketAnalysis : MarketAnalysis :=
  { size := "Market size needs assessment",
    growth := "Growth potential requires analysis",
    trends := ["Market trends research needed"],
    competitors := ["Competitive landscape analysis required"],
    opportunities := ["Market opportunities need identification"],
    threats := ["Risk factors need evaluation"] }

/-- Embeds `OpenRouterService.generateFallbackFeasibilityAnalysis`. -/
def generateFallbackFeasibilityAnalysis : FeasibilityAnalysis :=
  { technical := { score := 50,
                   challenges := ["Technical requirements need assessment"],
                   requirements := ["Technical specifications need definition"] },
    financial := { score := 45,
                   estimatedCost := "Financial requirements need analysis",
                   revenueModel := ["Revenue streams need identification"],
                   fundingNeeds := "Capital requirements need assessment" },
    market := { score := 50,
                demand := "Market demand needs validation",
                competition := "Competitive analysis required",
                barriers := ["Market entry barriers need evaluation"] } }

/-! ## Structured results -/

/-- One AI suggestion; the host-generated `id`/`createdAt`/`applied` fields are
omitted from the model. -/
structure AISuggestion where
  type : String
  content : String
deriving Repr, DecidableEq

/-- The structured idea produced by `processIdeaWithAI`
(`Omit<Idea, 'id' | 'createdAt' | 'updatedAt'>`). -/
structure StructuredIdea where
  title : String
  description : String
  category : String
  tags : List String
  painPoints : List String
  features : List String
  userPersonas : List String
  maturityScore : Int
  existingProducts : List String
  developmentStage : String
  isStarred : Bool
  marketAnalysis : MarketAnalysis
  feasibilityAnalysis : FeasibilityAnalysis
deriving Repr, DecidableEq

/-- One expanded idea (host-generated `id` omitted). -/
structure ExpandedIdea where
  title : String
  description : String
  targetAudience : String
  keyFeatures : List String
  marketAngle : String
  tags : List String
deriving Repr, DecidableEq

/-- One element of the parsed expansion response (all fields untrusted). -/
structure RawExpandedIdea where
  title : Option String := none
  description : Option String := none
  targetAudience : Option String := none
  keyFeatures : Option (List String) := none
  marketAngle : Option String := none
  tags : Option (List String) := none
deriving Repr, DecidableEq

/-- The two shapes of a `processIdeaWithAI` result:
`{structuredIdea, suggestions, isExpansion: false}` or
`{expandedIdeas, isExpansion: true}`. -/
inductive ProcessResult where
  | processed (structuredIdea : StructuredIdea) (suggestions : List AISuggestion)
  | expansion (expandedIdeas : List ExpandedIdea)
deriving Repr, DecidableEq

/-- The maturity score of a processed (non-expansion) result. -/
def ProcessResult.maturity : ProcessResult → Option Int
  | .processed idea _ => some idea.maturityScore
  | .expansion _ => none

/-- The development stage of a processed (non-expansion) result. -/
def ProcessResult.stage : ProcessResult → Option String
  | .processed idea _ => some idea.developmentStage
  | .expansion _ => none

/-- The suggestion list of a processed (non-expansion) result. -/
def ProcessResult.suggestionList : ProcessResult → Option (List AISuggestion)
  | .processed _ suggestions => some suggestions
  | .expansion _ => none

/-! ## Fallback processing -/

/-- Embeds `OpenRouterService.calculateBasicQualityScore`. -/
def calculateBasicQualityScore (input : String) (rand : Nat) : Int :=
  (validateIdeaQuality input rand).qualityScore

/-- Embeds `OpenRouterService.generateBalancedFallbackSuggestions`
(`validation?.isNonsensical` / `validation?.isLegitimate` are falsy when
`validation` is absent). -/
def generateBalancedFallbackSuggestions (validation : Option QualityVerdict) :
    List AISuggestion :=
  (show List AISuggestion from match validation with
   | some v =>
     if v.isNonsensical then
       [{ type := "critical",
          content := "❌ This appears to be nonsensical or contradictory. Please provide a coherent business concept." }]
     else if v.isLegitimate then
       [{ type := "improvement",
          content := "✅ This is a legitimate business concept. Focus on market research and business planning." }]
     else
       [{ type := "structure",
          content := "💡 This idea has potential but needs development. Focus on defining the problem and target market." }]
   | none =>
     [{ type := "structure",
        content := "💡 This idea has potential but needs development. Focus on defining the problem and target market." }]).take 3

/-- Embeds `jsToLower` / `jsTrim` lifted back to `String`. -/
def toLowerStr (s : String) : String := String.mk (jsToLower s.data)

def jsTrimStr (s : String) : String := String.mk (jsTrim s.data)

/-- The prefix removed by
`rawInput.replace(/please expand this rough idea into a comprehensive concept:\s*/i, '')`. -/
def expandPhrase : List Char :=
  "please expand this rough idea into a comprehensive concept:".data

/-- Case-insensitive first occurrence of `pat` in `s`. -/
def findCiIdx (pat : List Char) (s : List Char) : Option Nat :=
  (List.range (s.length + 1)).find?
    (fun i => pat.isPrefixOf (jsToLower (s.drop i)))

/-- Embeds `String.prototype.replace` with the (case-insensitive) expansion-request
pattern: removes the first occurrence of the phrase together with the
following whitespace run (the trailing `\s*`). -/
def replaceExpandPrefix (input : String) : String :=
  match findCiIdx expandPhrase input.data with
  | none => input
  | some i =>
    String.mk (input.data.take i
      ++ (input.data.drop (i + expandPhrase.length)).dropWhile jsSpace)

/-- Embeds `OpenRouterService.generateFallbackExpandedIdeas`.  `rand` models the
draw inside its `validateIdeaQuality` call. -/
def generateFallbackExpandedIdeas (roughIdea : String) (rand : Nat) : List ExpandedIdea :=
  let validation := validateIdeaQuality roughIdea rand
  if validation.isLegitimate then
    [{ title := roughIdea ++ " - Local Focus",
       description := "A locally-focused implementation of " ++ toLowerStr roughIdea
         ++ " targeting the immediate community with personalized service and local market understanding.",
       targetAudience := "Local community members and nearby residents",
       keyFeatures := ["Local market focus", "Community engagement",
                       "Personalized service", "Local partnerships"],
       marketAngle := "Community-centered approach with local market expertise",
       tags := ["local", "community", "personalized", "established"] },
     { title := roughIdea ++ " - Premium Service",
       description := "A premium version of " ++ toLowerStr roughIdea
         ++ " offering high-quality products/services with superior customer experience and premium positioning.",
       targetAudience := "Quality-conscious customers willing to pay premium prices",
       keyFeatures := ["Premium quality", "Superior service",
                       "Exclusive offerings", "High-end experience"],
       marketAngle := "Premium market positioning with focus on quality and service excellence",
       tags := ["premium", "quality", "service", "established"] }]
  else
    [{ title := roughIdea ++ " - Basic Concept",
       description := "A basic implementation of " ++ toLowerStr roughIdea
         ++ " that would require significant development, market validation, and competitive analysis.",
       targetAudience := "Target audience needs extensive research and validation",
       keyFeatures := ["Core functionality needs definition", "Market validation required",
                       "Competitive analysis needed"],
       marketAngle := "Market position unclear - requires research and validation",
       tags := ["concept", "validation-required", "development-needed"] }]

/-- Embeds `OpenRouterService.fallbackProcessing`.  `rand` models the draw of the
`validateIdeaQuality` call that may happen inside (either through
`calculateBasicQualityScore` or through `generateFallbackExpandedIdeas`). -/
def fallbackProcessing (rawInput : String) (isExpansion : Bool)
    (validation : Option QualityVerdict) (rand : Nat) : ProcessResult :=
  if isExpansion then
    let actualInput := jsTrimStr (replaceExpandPrefix rawInput)
    .expansion (generateFallbackExpandedIdeas actualInput rand)
  else
    let baseScore := match validation with
      | some v =>
        if v.qualityScore ≠ 0 then v.qualityScore else calculateBasicQualityScore rawInput rand
      | none => calculateBasicQualityScore rawInput rand
    .processed
      { title := extractTitle rawInput,
        description := rawInput,
        category := categorizeIdea rawInput,
        tags := generateSmartTags rawInput,
        painPoints := extractPainPoints rawInput,
        features := extractFeatures rawInput,
        userPersonas := extractUserPersonas rawInput,
        maturityScore := baseScore,
        existingProducts := [],
        developmentStage := "raw",
        isStarred := false,
        marketAnalysis := generateFallbackMarketAnalysis,
        feasibilityAnalysis := generateFallbackFeasibilityAnalysis }
      (generateBalancedFallbackSuggestions validation)

/-! ## The success-path structuring -/

/-- JS `x || y` on an optional string: the fallback is used when the field is
absent or the empty string. -/
def strOr (x : Option String) (y : String) : String :=
  match x with
  | some s => if s = "" then y else s
  | none => y

/-- The `structuredIdea` record literal of the `processIdeaWithAI` success
path. -/
def buildStructuredIdea (rawInput : String) (p : ExternalAssessment)
    (finalScore : Int) : StructuredIdea :=
  { title := strOr p.title (extractTitle rawInput),
    description := strOr p.description rawInput,
    category := (validateCategory p.category).getD (categorizeIdea rawInput),
    tags := match p.tags with
      | some l => l.take 5
      | none => generateSmartTags rawInput,
    painPoints := match p.painPoints with
      | some l => l.take 4
      | none => extractPainPoints rawInput,
    features := match p.features with
      | some l => l.take 5
      | none => extractFeatures rawInput,
    userPersonas := match p.userPersonas with
      | some l => l.take 3
      | none => extractUserPersonas rawInput,
    maturityScore := finalScore,
    existingProducts := [],
    developmentStage := "raw",
    isStarred := false,
    marketAnalysis := processMarketAnalysisFromResponse,
    feasibilityAnalysis := processFeasibilityAnalysisFromResponse }

/-- Embeds `OpenRouterService.generateBalancedSuggestions`. -/
def generateBalancedSuggestions (aiResponse : ExternalAssessment)
    (validation : QualityVerdict) (finalScore : Int) : List AISuggestion :=
  let base :=
    if validation.isNonsensical || finalScore < 20 then
      [{ type := "critical",
         content := "🚫 This concept has fundamental flaws that make it unviable. Consider completely rethinking the approach." }]
    else if validation.isLegitimate && 55 ≤ finalScore then
      [{ type := "improvement",
         content := "✅ This is a legitimate business concept. Focus on market research, location analysis, and competitive differentiation." },
       { type := "expansion",
         content := "📊 Consider conducting a feasibility study including target market analysis, startup costs, and revenue projections." }]
    else
      [{ type := "structure",
         content := "⚠️ This idea has potential but needs development. Focus on defining the problem, target market, and unique value proposition." }]
  let withAi := base ++ (match aiResponse.suggestions with
    | some l => l.map (fun s =>
        { type := strOr s.type "improvement",
          content := strOr s.content "Consider further development of this concept." })
    | none => [])
  let withIssues := withAi ++
    (if 0 < validation.issues.length && !validation.isLegitimate then
      validation.issues.map (fun issue =>
        { type := "structure", content := "💡 Improvement area: " ++ issue })
    else [])
  withIssues.take 5

/-! ## JSON span extraction (`response.match(/\{[\s\S]*\}/)` etc.) -/

/-- Embeds `response.match(/\x7b[\s\S]*\x7d/)`: the greedy match runs from the first
opening brace to the last closing brace; when there is no match the raw
response is parsed instead. -/
def extractJsonObject (response : String) : String :=
  match firstIdx (Char.ofNat 123) response.data, lastIdx (Char.ofNat 125) response.data with
  | some i, some j =>
    if i < j then String.mk ((response.data.drop i).take (j + 1 - i)) else response
  | _, _ => response

/-- Embeds `response.match(/[[\s\S]*]/ with square brackets)`: first `[` to last `]`. -/
def extractJsonArray (response : String) : String :=
  match firstIdx (Char.ofNat 91) response.data, lastIdx (Char.ofNat 93) response.data with
  | some i, some j =>
    if i < j then String.mk ((response.data.drop i).take (j + 1 - i)) else response
  | _, _ => response

/-! ## generateExpandedIdeas and processIdeaWithAI -/

/-- Embeds `OpenRouterService.generateExpandedIdeas`.  `parseList` is the host
JSON parser (`JSON.parse` + `Array` shape), an external collaborator; `r1`
models the draw of the initial validation, `r2` the draw inside the fallback.
The internal `try`/`catch` turns every API failure into the fallback list. -/
def generateExpandedIdeas (roughIdea : String) (r1 r2 : Nat) (apiKey : String)
    (net : NetResponse) (parseList : String → Option (List RawExpandedIdea)) :
    List ExpandedIdea :=
  let validation := validateIdeaQuality roughIdea r1
  if validation.isNonsensical then generateFallbackExpandedIdeas roughIdea r2
  else
    match makeAPICall apiKey net with
    | .error _ => generateFallbackExpandedIdeas roughIdea r2
    | .ok response =>
      match parseList (extractJsonArray response) with
      | none => generateFallbackExpandedIdeas roughIdea r2
      | some arr =>
        arr.enum.map (fun e =>
          { title := strOr e.2.title (roughIdea ++ " - Concept " ++ toString (e.1 + 1)),
            description := strOr e.2.description "A comprehensive expansion of your original concept.",
            targetAudience := strOr e.2.targetAudience "Target audience needs definition",
            keyFeatures := (e.2.keyFeatures).getD ["Features need definition"],
            marketAngle := strOr e.2.marketAngle "Market positioning needs development",
            tags := (e.2.tags).getD ["concept", "development"] })

/-- Embeds `rawInput.toLowerCase().includes('expand this rough idea')`. -/
def isExpansionRequest (rawInput : String) : Bool :=
  containsSub "expand this rough idea".data (jsToLower rawInput.data)

/-- The `try` block of `OpenRouterService.processIdeaWithAI`: the only
exceptions that can reach the outer `catch` are those thrown by the
non-expansion `makeAPICall` (the expansion helper catches its own).
`rng i` models the `i`-th `Math.random()` draw (0: main validation,
1: rough-idea validation, 2: fallback-internal validation, 3/4: expansion
internals); `parse` is the host JSON parser for the response object. -/
def processIdeaWithAIBody (rawInput : String) (rng : Nat → Nat) (apiKey : String)
    (net : NetResponse) (parse : String → Option ExternalAssessment)
    (parseList : String → Option (List RawExpandedIdea)) :
    Except ApiError ProcessResult :=
  let validation := validateIdeaQuality rawInput (rng 0)
  if isExpansionRequest rawInput then
    let roughIdea := jsTrimStr (replaceExpandPrefix rawInput)
    let roughValidation := validateIdeaQuality roughIdea (rng 1)
    if roughValidation.isNonsensical then
      .ok (fallbackProcessing rawInput true (some roughValidation) (rng 2))
    else
      .ok (.expansion (generateExpandedIdeas roughIdea (rng 3) (rng 4) apiKey net parseList))
  else
    if validation.isNonsensical then
      .ok (fallbackProcessing rawInput false (some validation) (rng 2))
    else
      match makeAPICall apiKey net with
      | .error e => .error e
      | .ok response =>
        match parse (extractJsonObject response) with
        | none => .ok (fallbackProcessing rawInput false (some validation) (rng 2))
        | some parsedResponse =>
          let finalScore := calculateBalancedScore parsedResponse validation rawInput
          .ok (.processed (buildStructuredIdea rawInput parsedResponse finalScore)
                 (generateBalancedSuggestions parsedResponse validation finalScore))

/-- Embeds `OpenRouterService.processIdeaWithAI`: the outer `catch` replaces every
escaped exception with `fallbackProcessing(rawInput, isExpansionRequest)`
(no validation record is passed there; `rng 5` models the draw of the
re-validation inside that fallback). -/
def processIdeaWithAI (rawInput : String) (rng : Nat → Nat) (apiKey : String)
    (net : NetResponse) (parse : String → Option ExternalAssessment)
    (parseList : String → Option (List RawExpandedIdea)) : ProcessResult :=
  match processIdeaWithAIBody rawInput rng apiKey net parse parseList with
  | .ok r => r
  | .error _ => fallbackProcessing rawInput (isExpansionRequest rawInput) none (rng 5)

/-! ## ClusteringService (clusteringService.ts) -/

/-- The slice of a persisted `Idea` record that `findClusters` reads:
identity, the two query fields, the theme fields.  (`painPoints`/`features`
only feed the fuzzy index, which is modelled by the `search` oracle.) -/
structure IdeaRec where
  id : String
  title : String
  description : String
  category : String
  tags : List String
deriving Repr, DecidableEq

/-- A derived cluster (host-generated `id`/`createdAt` omitted). -/
structure IdeaCluster where
  name : String
  ideaIds : List String
  theme : String
  color : String
deriving Repr, DecidableEq

/-- Embeds `ClusteringService.getMostCommon`: the JS `reduce`-built count object
iterates entries in first-insertion order. -/
def countsOf (arr : List String) : List (String × Nat) :=
  arr.foldl (fun acc item =>
    if acc.any (fun e => e.1 = item) then
      acc.map (fun e => if e.1 = item then (e.1, e.2 + 1) else e)
    else acc ++ [(item, 1)]) []

/-- Embeds `Object.entries(counts).reduce((a, b) => counts[a[0]] > counts[b[0]] ? a : b)`. -/
def getMostCommon (arr : List String) : Option String :=
  match countsOf arr with
  | [] => none
  | e :: es => some (es.foldl (fun a b => if b.2 < a.2 then a else b) e).1

/-- Embeds `.replace(/^\w/, c => c.toUpperCase())`: capitalise a leading word
character. -/
def capitalizeFirst (s : String) : String :=
  match s.data with
  | [] => s
  | c :: cs =>
    if ('a' ≤ c ∧ c ≤ 'z') ∨ ('A' ≤ c ∧ c ≤ 'Z') ∨ ('0' ≤ c ∧ c ≤ '9') ∨ c = '_' then
      String.mk (c.toUpper :: cs)
    else s

/-- Embeds `ClusteringService.generateClusterTheme` (always called on a non-empty
member list, so the most common category exists; JS would stringify a `null`
category). -/
def generateClusterTheme (ideas : List IdeaRec) : String :=
  let mostCommonCategory := (getMostCommon (ideas.map (fun i => i.category))).getD "null"
  let commonTags := getMostCommon (ideas.flatMap (fun i => i.tags))
  match commonTags with
  | some t =>
    if t ≠ mostCommonCategory then capitalizeFirst (t ++ " " ++ mostCommonCategory)
    else capitalizeFirst (mostCommonCategory ++ " Ideas")
  | none => capitalizeFirst (mostCommonCategory ++ " Ideas")

/-- Embeds `ClusteringService.getClusterColor`. -/
def getClusterColor (index : Nat) : String :=
  (["bg-blue-100 border-blue-300", "bg-green-100 border-green-300",
    "bg-purple-100 border-purple-300", "bg-yellow-100 border-yellow-300",
    "bg-pink-100 border-pink-300", "bg-indigo-100 border-indigo-300"].get?
    (index % 6)).getD ""

/-- One iteration of the `ideas.forEach` loop of `findClusters`: the
accumulator is the cluster list paired with the processed-id set.
`search idea` models `fuse.search(idea.title + ' ' + idea.description)`
(the Fuse.js index is an external collaborator; its result list is
arbitrary). -/
def findClustersStep (search : IdeaRec → List IdeaRec)
    (acc : List IdeaCluster × List String) (idea : IdeaRec) :
    List IdeaCluster × List String :=
  if acc.2.contains idea.id then acc
  else
    let similarIdeas := (search idea).filter
      (fun r => r.id ≠ idea.id && !acc.2.contains r.id)
    if similarIdeas.isEmpty then acc
    else
      let clusterIdeas := idea :: similarIdeas
      let theme := generateClusterTheme clusterIdeas
      let cluster : IdeaCluster :=
        { name := theme,
          ideaIds := clusterIdeas.map (fun i => i.id),
          theme := theme,
          color := getClusterColor acc.1.length }
      (acc.1 ++ [cluster], acc.2 ++ clusterIdeas.map (fun i => i.id))

/-- Embeds `ClusteringService.findClusters` (the 500 ms cosmetic delay is dropped). -/
def findClusters (ideas : List IdeaRec) (search : IdeaRec → List IdeaRec) :
    List IdeaCluster :=
  if ideas.length < 2 then []
  else (ideas.foldl (findClustersStep search) ([], [])).1

/-! ## Lemmas about the validator's score bands -/

theorem scoreAfterGibberish_of_step7 (text : List Char)
    (h : step7Nonsens text = true) : scoreAfterGibberish text = 8 := by
  have hg : gibberishFlag text = true := by
    have := h
    unfold step7Nonsens at this
    exact (Bool.and_eq_true _ _ |>.mp this).1
  have ha : avgWordLenLt3Halves text = true := by
    have := h
    unfold step7Nonsens at this
    exact (Bool.and_eq_true _ _ |>.mp this).2
  unfold scoreAfterGibberish
  rw [hg, ha]
  simp

theorem scoreAfterLegitBoost_of_step7 (text : List Char)
    (h : step7Nonsens text = true) : scoreAfterLegitBoost text = 8 := by
  unfold scoreAfterLegitBoost
  rw [h]
  simp [scoreAfterGibberish_of_step7 text h]

theorem finalQualityScore_of_step7 (text : List Char)
    (h : step7Nonsens text = true) : finalQualityScore text = 8 := by
  unfold finalQualityScore
  rw [h, scoreAfterLegitBoost_of_step7 text h]
  simp

theorem finalQualityScore_legit_band (text : List Char)
    (h : step7Nonsens text = false) (hl : legitFlag text = true) :
    55 ≤ finalQualityScore text ∧ finalQualityScore text ≤ 85 := by
  unfold finalQualityScore
  rw [h, hl]
  simp only [Bool.false_eq_true, if_false, if_true]
  omega

theorem finalQualityScore_default_band (text : List Char)
    (h : step7Nonsens text = false) (hl : legitFlag text = false) :
    15 ≤ finalQualityScore text ∧ finalQualityScore text ≤ 75 := by
  unfold finalQualityScore
  rw [h, hl]
  simp only [Bool.false_eq_true, if_false]
  omega

theorem randBand (r : Nat) : 3 ≤ ((r % 13 : Nat) : Int) + 3 ∧ ((r % 13 : Nat) : Int) + 3 ≤ 15 := by
  have h13 : r % 13 < 13 := Nat.mod_lt r (by norm_num)
  omega

/-- The step-1 short-circuit record, for every input whose processed text
matches a nonsensical pattern. -/
theorem validateIdeaQuality_of_nonsensMatch (input : String) (rand : Nat)
    (h : nonsensicalMatch (processedText input) = true) :
    validateIdeaQuality input rand =
      { isValid := false,
        issues := ["This appears to be a fundamentally flawed or nonsensical business concept"],
        qualityScore := ((rand % 13 : Nat) : Int) + 3,
        isNonsensical := true,
        isLegitimate := false } := by
  unfold validateIdeaQuality
  simp only [h, if_true]

/-- The non-short-circuit record, for every input whose processed text does
not match a nonsensical pattern. -/
theorem validateIdeaQuality_of_no_nonsensMatch (input : String) (rand : Nat)
    (h : nonsensicalMatch (processedText input) = false) :
    validateIdeaQuality input rand =
      { isValid := decide (25 ≤ finalQualityScore (processedText input))
                     && !step7Nonsens (processedText input),
        issues := issuesOf (processedText input),
        qualityScore := finalQualityScore (processedText input),
        isNonsensical := step7Nonsens (processedText input),
        isLegitimate := legitFlag (processedText input) } := by
  unfold validateIdeaQuality
  simp only [h, Bool.false_eq_true, if_false]

/-- Nonsensical verdicts always carry a score in the 3–15 band. -/
theorem validateIdeaQuality_nonsens_band (input : String) (rand : Nat)
    (h : (validateIdeaQuality input rand).isNonsensical = true) :
    3 ≤ (validateIdeaQuality input rand).qualityScore ∧
      (validateIdeaQuality input rand).qualityScore ≤ 15 := by
  by_cases hn : nonsensicalMatch (processedText input) = true
  · rw [validateIdeaQuality_of_nonsensMatch input rand hn]
    exact randBand rand
  · have hn' : nonsensicalMatch (processedText input) = false := by
      revert hn
      cases nonsensicalMatch (processedText input) <;> simp
    rw [validateIdeaQuality_of_no_nonsensMatch input rand hn'] at h ⊢
    have h7 : step7Nonsens (processedText input) = true := h
    simp only [finalQualityScore_of_step7 (processedText input) h7]
    omega

/-- Every verdict score lies in the 3–85 range. -/
theorem validateIdeaQuality_bounds (input : String) (rand : Nat) :
    3 ≤ (validateIdeaQuality input rand).qualityScore ∧
      (validateIdeaQuality input rand).qualityScore ≤ 85 := by
  by_cases hn : nonsensicalMatch (processedText input) = true
  · rw [validateIdeaQuality_of_nonsensMatch input rand hn]
    dsimp only
    have := randBand rand
    constructor <;> omega
  · have hn' : nonsensicalMatch (processedText input) = false := by
      revert hn
      cases nonsensicalMatch (processedText input) <;> simp
    rw [validateIdeaQuality_of_no_nonsensMatch input rand hn']
    dsimp only
    by_cases h7 : step7Nonsens (processedText input) = true
    · simp only [finalQualityScore_of_step7 (processedText input) h7]
      omega
    · have h7' : step7Nonsens (processedText input) = false := by
        revert h7
        cases step7Nonsens (processedText input) <;> simp
      by_cases hl : legitFlag (processedText input) = true
      · have := finalQualityScore_legit_band (processedText input) h7' hl
        constructor <;> omega
      · have hl' : legitFlag (processedText input) = false := by
          revert hl
          cases legitFlag (processedText input) <;> simp
        have := finalQualityScore_default_band (processedText input) h7' hl'
        constructor <;> omega

/-- Legitimate, non-nonsensical verdicts are floored at 55. -/
theorem validateIdeaQuality_legit_floor (input : String) (rand : Nat)
    (hl : (validateIdeaQuality input rand).isLegitimate = true)
    (hn : (validateIdeaQuality input rand).isNonsensical = false) :
    55 ≤ (validateIdeaQuality input rand).qualityScore := by
  by_cases hm : nonsensicalMatch (processedText input) = true
  · rw [validateIdeaQuality_of_nonsensMatch input rand hm] at hl
    simp at hl
  · have hm' : nonsensicalMatch (processedText input) = false := by
      revert hm
      cases nonsensicalMatch (processedText input) <;> simp
    rw [validateIdeaQuality_of_no_nonsensMatch input rand hm'] at hl hn ⊢
    dsimp only at hl hn ⊢
    exact (finalQualityScore_legit_band (processedText input) hn hl).1

/-! ## Claim C1 -/

/-- C1: for every input whose lowercased, trimmed form matches one of the
configured nonsensical-business patterns, `validateIdeaQuality` returns
immediately with `isNonsensical = true`, `isValid = false` and a
`qualityScore` in the 3–15 band — for every value of the random draw. -/
theorem c1_nonsensical_short_circuit (input : String) (rand : Nat)
    (h : nonsensicalMatch (processedText input) = true) :
    (validateIdeaQuality input rand).isNonsensical = true ∧
    (validateIdeaQuality input rand).isValid = false ∧
    3 ≤ (validateIdeaQuality input rand).qualityScore ∧
    (validateIdeaQuality input rand).qualityScore ≤ 15 := by
  rw [validateIdeaQuality_of_nonsensMatch input rand h]
  dsimp only
  have := randBand rand
  exact ⟨rfl, rfl, this.1, this.2⟩

theorem c1_witness :
    nonsensicalMatch (processedText "buy high and sell low to everyone") = true ∧
    ((validateIdeaQuality "buy high and sell low to everyone" 7).isNonsensical = true ∧
     (validateIdeaQuality "buy high and sell low to everyone" 7).isValid = false ∧
     3 ≤ (validateIdeaQuality "buy high and sell low to everyone" 7).qualityScore ∧
     (validateIdeaQuality "buy high and sell low to everyone" 7).qualityScore ≤ 15) :=
  ⟨by decide, c1_nonsensical_short_circuit "buy high and sell low to everyone" 7 (by decide)⟩

/-! ## Claim C3 -/

/-- C3, counterexample: `"app help a a a a a a a a a"` matches the
legitimate-business pattern `app.*(?:help|…)` and no nonsensical pattern, yet
its verdict score is 8 (< 50): the step-7 average-word-length gibberish check
flags the text as nonsensical after the legitimacy match, and the final
bounds then cap the score at 15 instead of flooring it at 55.  (The score of
this branch does not depend on the random draw.) -/
theorem c3_counterexample :
    legitimateMatch (processedText "app help a a a a a a a a a") = true ∧
    nonsensicalMatch (processedText "app help a a a a a a a a a") = false ∧
    ¬ (50 ≤ (validateIdeaQuality "app help a a a a a a a a a" 0).qualityScore) :=
  ⟨by decide, by decide, by decide⟩

/-- C3, amended: for every input whose lowercased, trimmed form matches a
configured legitimate-business pattern, matches no nonsensical-business
pattern, **and is not flagged as gibberish by the step-7 average-word-length
check**, the verdict score is at least 50 (indeed at least 55). -/
theorem c3_legitimate_floor (input : String) (rand : Nat)
    (h1 : legitimateMatch (processedText input) = true)
    (h2 : nonsensicalMatch (processedText input) = false)
    (h3 : step7Nonsens (processedText input) = false) :
    50 ≤ (validateIdeaQuality input rand).qualityScore := by
  rw [validateIdeaQuality_of_no_nonsensMatch input rand h2]
  dsimp only
  have hl : legitFlag (processedText input) = true := by
    unfold legitFlag
    rw [h1]
    rfl
  have := (finalQualityScore_legit_band (processedText input) h3 hl).1
  omega

theorem c3_witness :
    (legitimateMatch (processedText "start a bakery business") = true ∧
     nonsensicalMatch (processedText "start a bakery business") = false ∧
     step7Nonsens (processedText "start a bakery business") = false) ∧
    50 ≤ (validateIdeaQuality "start a bakery business" 4).qualityScore :=
  ⟨⟨by decide, by decide, by decide⟩,
   c3_legitimate_floor "start a bakery business" 4 (by decide) (by decide) (by decide)⟩

/-! ## Claim C4 -/

/-- C4: every verdict satisfies the data-model invariant
`isNonsensical ⇒ score ≤ 15` and `isLegitimate ∧ ¬isNonsensical ⇒ score ≥ 50`. -/
theorem c4_verdict_invariant (input : String) (rand : Nat) :
    ((validateIdeaQuality input rand).isNonsensical = true →
      (validateIdeaQuality input rand).qualityScore ≤ 15) ∧
    ((validateIdeaQuality input rand).isLegitimate = true →
      (validateIdeaQuality input rand).isNonsensical = false →
      50 ≤ (validateIdeaQuality input rand).qualityScore) := by
  constructor
  · intro h
    exact (validateIdeaQuality_nonsens_band input rand h).2
  · intro hl hn
    have := validateIdeaQuality_legit_floor input rand hl hn
    omega

theorem c4_witness :
    (validateIdeaQuality "buy high and sell low to everyone" 5).qualityScore ≤ 15 ∧
    50 ≤ (validateIdeaQuality "start a bakery business" 0).qualityScore :=
  ⟨(c4_verdict_invariant "buy high and sell low to everyone" 5).1 (by decide),
   (c4_verdict_invariant "start a bakery business" 0).2 (by decide) (by decide)⟩

/-! ## Claim C10 -/

/-- C10: for every input and every random draw, the verdict score lies in
[3, 85]; in particular no input can ever receive a validator score above 85. -/
theorem c10_score_range (input : String) (rand : Nat) :
    3 ≤ (validateIdeaQuality input rand).qualityScore ∧
      (validateIdeaQuality input rand).qualityScore ≤ 85 :=
  validateIdeaQuality_bounds input rand

/-! ## Claim C2 -/

/-- C2: for every verdict actually produced by `validateIdeaQuality` (any
input, any random draw), any external assessment and any original text,
`calculateBalancedScore` returns a score strictly inside (0, 100): never ≤ 0
and never ≥ 100, hence never exactly 0 or 100. -/
theorem c2_reconcile_in_open_interval (input : String) (rand : Nat)
    (aiResponse : ExternalAssessment) (originalInput : String) :
    0 < calculateBalancedScore aiResponse (validateIdeaQuality input rand) originalInput ∧
    calculateBalancedScore aiResponse (validateIdeaQuality input rand) originalInput < 100 := by
  by_cases h : (validateIdeaQuality input rand).isNonsensical = true
  · have hband := validateIdeaQuality_nonsens_band input rand h
    unfold calculateBalancedScore
    simp only [h, if_true]
    omega
  · have h' : (validateIdeaQuality input rand).isNonsensical = false := by
      revert h
      cases (validateIdeaQuality input rand).isNonsensical <;> simp
    unfold calculateBalancedScore
    simp only [h', Bool.false_eq_true, if_false]
    by_cases hl : (validateIdeaQuality input rand).isLegitimate = true
    · simp only [hl, if_true]
      omega
    · have hl' : (validateIdeaQuality input rand).isLegitimate = false := by
        revert hl
        cases (validateIdeaQuality input rand).isLegitimate <;> simp
      simp only [hl', Bool.false_eq_true, if_false]
      omega

/-! ## Claim C8 -/

/-- C8: `calculateBalancedScore` is a deterministic pure function of its three
inputs — any two invocations with identical (assessment, verdict, text)
triples return the same score; the embedding exhibits no other state the
result could depend on. -/
theorem c8_reconcile_deterministic (a₁ a₂ : ExternalAssessment)
    (v₁ v₂ : QualityVerdict) (t₁ t₂ : String)
    (ha : a₁ = a₂) (hv : v₁ = v₂) (ht : t₁ = t₂) :
    calculateBalancedScore a₁ v₁ t₁ = calculateBalancedScore a₂ v₂ t₂ := by
  subst ha
  subst hv
  subst ht
  rfl

theorem c8_witness :
    calculateBalancedScore {} (validateIdeaQuality "start a bakery business" 0)
        "start a bakery business"
      = calculateBalancedScore {} (validateIdeaQuality "start a bakery business" 0)
        "start a bakery business" :=
  c8_reconcile_deterministic {} {}
    (validateIdeaQuality "start a bakery business" 0)
    (validateIdeaQuality "start a bakery business" 0)
    "start a bakery business" "start a bakery business" rfl rfl rfl

/-! ## Lemmas about the fallback path and the API boundary -/

theorem generateBalancedFallbackSuggestions_ne_nil (v : Option QualityVerdict) :
    generateBalancedFallbackSuggestions v ≠ [] := by
  unfold generateBalancedFallbackSuggestions
  cases v with
  | none => simp
  | some v' =>
    by_cases h1 : v'.isNonsensical = true
    · simp [h1]
    · by_cases h2 : v'.isLegitimate = true
      · simp [h1, h2]
      · simp [h1, h2]

/-- A non-expansion fallback is always a completed `processed` record with
`developmentStage = "raw"` and a non-empty suggestion list. -/
theorem fallbackProcessing_nonexp_shape (rawInput : String)
    (v : Option QualityVerdict) (rand : Nat) :
    ∃ idea sugg, fallbackProcessing rawInput false v rand = .processed idea sugg ∧
      idea.developmentStage = "raw" ∧ sugg ≠ [] := by
  unfold fallbackProcessing
  simp only [Bool.false_eq_true, if_false]
  exact ⟨_, _, rfl, rfl, generateBalancedFallbackSuggestions_ne_nil v⟩

/-- The maturity score of a non-expansion fallback built from a verdict with
a non-zero (hence truthy) score is exactly that verdict score. -/
theorem fallbackProcessing_maturity (rawInput : String) (v : QualityVerdict)
    (rand : Nat) (h : v.qualityScore ≠ 0) :
    (fallbackProcessing rawInput false (some v) rand).maturity = some v.qualityScore := by
  unfold fallbackProcessing
  simp only [Bool.false_eq_true, if_false, h, ne_eq, not_false_eq_true, if_true]
  rfl

/-- A successful `makeAPICall` implies the network reported success, and the
returned body is the (defaulted) message content. -/
theorem makeAPICall_ok_elim (key : String) (net : NetResponse) (resp : String)
    (h : makeAPICall key net = .ok resp) :
    net.ok = true ∧ resp = net.content.getD "" := by
  unfold makeAPICall at h
  split_ifs at h with h1 h2 h3
  have hok : net.ok = true := by
    revert h3
    cases net.ok <;> simp
  injection h with hr
  exact ⟨hok, hr.symm⟩

/-! ## Claim C5 -/

/-- C5: for the input `"buy high and sell low to everyone"`,
`processIdeaWithAI` produces a nonsensical verdict, never consults the API
key, the network, or the response parsers (the result is identical for any
two configurations/oracles — `makeAPICall` is not reached), and the returned
structured idea's maturity score lies in [3, 15] — for every random stream. -/
theorem c5_buy_high_sell_low_skips_api (rng : Nat → Nat)
    (key key' : String) (net net' : NetResponse)
    (parse parse' : String → Option ExternalAssessment)
    (parseList parseList' : String → Option (List RawExpandedIdea)) :
    (validateIdeaQuality "buy high and sell low to everyone" (rng 0)).isNonsensical = true ∧
    processIdeaWithAI "buy high and sell low to everyone" rng key net parse parseList
      = fallbackProcessing "buy high and sell low to everyone" false
          (some (validateIdeaQuality "buy high and sell low to everyone" (rng 0))) (rng 2) ∧
    processIdeaWithAI "buy high and sell low to everyone" rng key net parse parseList
      = processIdeaWithAI "buy high and sell low to everyone" rng key' net' parse' parseList' ∧
    ∃ m, (processIdeaWithAI "buy high and sell low to everyone" rng key net parse parseList).maturity
           = some m ∧ 3 ≤ m ∧ m ≤ 15 := by
  have hn : nonsensicalMatch (processedText "buy high and sell low to everyone") = true := by
    decide
  have hexp : isExpansionRequest "buy high and sell low to everyone" = false := by
    decide
  have hv : (validateIdeaQuality "buy high and sell low to everyone" (rng 0)).isNonsensical
      = true := by
    rw [validateIdeaQuality_of_nonsensMatch _ (rng 0) hn]
  have hband := validateIdeaQuality_nonsens_band _ (rng 0) hv
  have hbody : ∀ (k : String) (n : NetResponse)
      (p : String → Option ExternalAssessment)
      (q : String → Option (List RawExpandedIdea)),
      processIdeaWithAIBody "buy high and sell low to everyone" rng k n p q
        = .ok (fallbackProcessing "buy high and sell low to everyone" false
            (some (validateIdeaQuality "buy high and sell low to everyone" (rng 0))) (rng 2)) := by
    intro k n p q
    unfold processIdeaWithAIBody
    simp only [hexp, Bool.false_eq_true, if_false, hv, if_true]
  have hresult : processIdeaWithAI "buy high and sell low to everyone" rng key net parse parseList
      = fallbackProcessing "buy high and sell low to everyone" false
          (some (validateIdeaQuality "buy high and sell low to everyone" (rng 0))) (rng 2) := by
    unfold processIdeaWithAI
    rw [hbody key net parse parseList]
  have hresult' : processIdeaWithAI "buy high and sell low to everyone" rng key' net' parse' parseList'
      = fallbackProcessing "buy high and sell low to everyone" false
          (some (validateIdeaQuality "buy high and sell low to everyone" (rng 0))) (rng 2) := by
    unfold processIdeaWithAI
    rw [hbody key' net' parse' parseList']
  refine ⟨hv, hresult, hresult.trans hresult'.symm, ?_⟩
  refine ⟨(validateIdeaQuality "buy high and sell low to everyone" (rng 0)).qualityScore, ?_, hband.1, hband.2⟩
  rw [hresult]
  exact fallbackProcessing_maturity _ _ (rng 2) (by omega)

/-! ## Claim C6 -/

/-- C6, counterexample: with an unset API key and the concrete input
`"start a bakery business"`, the `try` body of `processIdeaWithAI` does raise
the configuration error `missingKey` (before any network effect), but
`processIdeaWithAI` itself catches it and hands its caller the completed
local fallback record (`developmentStage = "raw"`) instead of surfacing a
blocking error — so the configuration error is absorbed, not propagated. -/
theorem c6_counterexample :
    processIdeaWithAIBody "start a bakery business" (fun _ => 0) ""
        ⟨true, 200, none⟩ (fun _ => none) (fun _ => none) = .error .missingKey ∧
    processIdeaWithAI "start a bakery business" (fun _ => 0) ""
        ⟨true, 200, none⟩ (fun _ => none) (fun _ => none)
      = fallbackProcessing "start a bakery business" false none 0 ∧
    (processIdeaWithAI "start a bakery business" (fun _ => 0) ""
        ⟨true, 200, none⟩ (fun _ => none) (fun _ => none)).stage = some "raw" := by
  refine ⟨by rfl, by rfl, ?_⟩
  rw [show processIdeaWithAI "start a bakery business" (fun _ => 0) ""
        ⟨true, 200, none⟩ (fun _ => none) (fun _ => none)
      = fallbackProcessing "start a bakery business" false none 0 from rfl]
  rcases fallbackProcessing_nonexp_shape "start a bakery business" none 0 with ⟨idea, sugg, heq, hstage, _⟩
  rw [heq]
  simp [ProcessResult.stage, hstage]

/-- C6, amended: a missing or malformed API key is detected and raised as a
distinguishable configuration error before any network request (`makeAPICall`
fails with `missingKey`/`invalidKeyFormat` independently of the network
response); `processIdeaWithAI`, however, absorbs every error thrown by its
`try` body — configuration errors included — and returns the deterministic
local fallback record to its caller instead of surfacing a blocking error. -/
theorem c6_config_error_detected_then_absorbed (key : String)
    (net net' : NetResponse) (input : String) (rng : Nat → Nat)
    (parse : String → Option ExternalAssessment)
    (parseList : String → Option (List RawExpandedIdea))
    (hbad : key = "" ∨ "sk-or-v1-".data.isPrefixOf key.data = false) :
    (∃ e, makeAPICall key net = .error e ∧ e.isConfigurationError = true) ∧
    makeAPICall key net = makeAPICall key net' ∧
    (∀ e, processIdeaWithAIBody input rng key net parse parseList = .error e →
      processIdeaWithAI input rng key net parse parseList
        = fallbackProcessing input (isExpansionRequest input) none (rng 5)) := by
  have hmk : ∀ n : NetResponse, makeAPICall key n
      = .error (if key = "" then ApiError.missingKey else ApiError.invalidKeyFormat) := by
    intro n
    by_cases hk : key = ""
    · unfold makeAPICall
      simp [hk]
    · rcases hbad with h | h
      · exact absurd h hk
      · unfold makeAPICall
        simp [hk, h]
  refine ⟨⟨_, hmk net, ?_⟩, (hmk net).trans (hmk net').symm, ?_⟩
  · by_cases hk : key = "" <;> simp [hk, ApiError.isConfigurationError]
  · intro e he
    unfold processIdeaWithAI
    rw [he]

theorem c6_witness :
    ((∃ e, makeAPICall "bad-key" ⟨true, 200, none⟩ = .error e ∧
        e.isConfigurationError = true) ∧
     makeAPICall "bad-key" ⟨true, 200, none⟩ = makeAPICall "bad-key" ⟨false, 500, none⟩ ∧
     (∀ e, processIdeaWithAIBody "start a bakery business" (fun _ => 0) "bad-key"
         ⟨true, 200, none⟩ (fun _ => none) (fun _ => none) = .error e →
       processIdeaWithAI "start a bakery business" (fun _ => 0) "bad-key"
           ⟨true, 200, none⟩ (fun _ => none) (fun _ => none)
         = fallbackProcessing "start a bakery business"
             (isExpansionRequest "start a bakery business") none 0)) :=
  c6_config_error_detected_then_absorbed "bad-key" ⟨true, 200, none⟩ ⟨false, 500, none⟩
    "start a bakery business" (fun _ => 0) (fun _ => none) (fun _ => none)
    (Or.inr (by decide))

/-! ## Claim C7 -/

/-- C7: for any non-expansion input, whenever the external call fails (any
non-ok network outcome, e.g. HTTP 401) or the response body cannot be parsed
as JSON, `processIdeaWithAI` propagates no exception: it returns a locally
synthesized `processed` fallback record whose `developmentStage` is `"raw"`
and whose suggestion list is non-empty. -/
theorem c7_failure_yields_raw_fallback (input : String) (rng : Nat → Nat)
    (key : String) (net : NetResponse)
    (parse : String → Option ExternalAssessment)
    (parseList : String → Option (List RawExpandedIdea))
    (hexp : isExpansionRequest input = false)
    (hfail : net.ok = false ∨ parse (extractJsonObject (net.content.getD "")) = none) :
    ∃ idea sugg, processIdeaWithAI input rng key net parse parseList
        = .processed idea sugg ∧ idea.developmentStage = "raw" ∧ sugg ≠ [] := by
  unfold processIdeaWithAI processIdeaWithAIBody
  simp only [hexp, Bool.false_eq_true, if_false]
  by_cases hv : (validateIdeaQuality input (rng 0)).isNonsensical = true
  · simp only [hv, if_true]
    exact fallbackProcessing_nonexp_shape input _ (rng 2)
  · have hv' : (validateIdeaQuality input (rng 0)).isNonsensical = false := by
      revert hv
      cases (validateIdeaQuality input (rng 0)).isNonsensical <;> simp
    simp only [hv', Bool.false_eq_true, if_false]
    rcases hm : makeAPICall key net with e | resp
    · simp only [hm]
      exact fallbackProcessing_nonexp_shape input none (rng 5)
    · have hok := makeAPICall_ok_elim key net resp hm
      rcases hfail with hno | hp
      · rw [hno] at hok
        exact absurd hok.1 (by simp)
      · simp only [hm, hok.2, hp]
        exact fallbackProcessing_nonexp_shape input _ (rng 2)

theorem c7_witness :
    ∃ idea sugg,
      processIdeaWithAI "start a bakery business" (fun _ => 0) "sk-or-v1-abc"
          ⟨false, 401, none⟩ (fun _ => none) (fun _ => none)
        = .processed idea sugg ∧ idea.developmentStage = "raw" ∧ sugg ≠ [] :=
  c7_failure_yields_raw_fallback "start a bakery business" (fun _ => 0) "sk-or-v1-abc"
    ⟨false, 401, none⟩ (fun _ => none) (fun _ => none) (by decide) (Or.inl rfl)

/-! ## Claim C9: disjointness of the greedy clusters -/

/-- Two clusters are id-disjoint. -/
def ClusterDisj (c₁ c₂ : IdeaCluster) : Prop :=
  ∀ x, x ∈ c₁.ideaIds → x ∉ c₂.ideaIds

theorem contains_false_not_mem (l : List String) (a : String)
    (h : l.contains a = false) : a ∉ l := by
  intro hm
  have ht : l.contains a = true := List.elem_iff.mpr hm
  rw [h] at ht
  cases ht

/-- One loop iteration preserves the invariant: every already-emitted cluster
draws its ids from the processed set, and the emitted clusters are pairwise
id-disjoint. -/
theorem findClustersStep_inv (search : IdeaRec → List IdeaRec)
    (acc : List IdeaCluster × List String) (idea : IdeaRec)
    (hsub : ∀ c ∈ acc.1, ∀ x ∈ c.ideaIds, x ∈ acc.2)
    (hpw : List.Pairwise ClusterDisj acc.1) :
    (∀ c ∈ (findClustersStep search acc idea).1,
        ∀ x ∈ c.ideaIds, x ∈ (findClustersStep search acc idea).2) ∧
    List.Pairwise ClusterDisj (findClustersStep search acc idea).1 := by
  unfold findClustersStep
  by_cases h1 : acc.2.contains idea.id = true
  · simp only [h1, if_true]
    exact ⟨hsub, hpw⟩
  · have h1' : acc.2.contains idea.id = false := by
      revert h1
      cases acc.2.contains idea.id <;> simp
    simp only [h1', Bool.false_eq_true, if_false]
    by_cases h2 : ((search idea).filter
        (fun r => r.id ≠ idea.id && !acc.2.contains r.id)).isEmpty = true
    · simp only [h2, if_true]
      exact ⟨hsub, hpw⟩
    · have h2' : ((search idea).filter
          (fun r => r.id ≠ idea.id && !acc.2.contains r.id)).isEmpty = false := by
        revert h2
        cases ((search idea).filter
          (fun r => r.id ≠ idea.id && !acc.2.contains r.id)).isEmpty <;> simp
      simp only [h2', Bool.false_eq_true, if_false]
      -- the fresh cluster's ids avoid the processed set
      have hfresh : ∀ x, x ∈ (idea :: (search idea).filter
          (fun r => r.id ≠ idea.id && !acc.2.contains r.id)).map (fun i => i.id) →
          x ∉ acc.2 := by
        intro x hx
        rcases List.mem_map.mp hx with ⟨r, hr, hid⟩
        rcases List.mem_cons.mp hr with h | h
        · subst h
          rw [← hid]
          exact contains_false_not_mem _ _ h1'
        · have hp := (List.mem_filter.mp h).2
          have hc : acc.2.contains r.id = false := by
            rcases Bool.and_eq_true _ _ |>.mp hp with ⟨_, hnc⟩
            revert hnc
            cases acc.2.contains r.id <;> simp
          rw [← hid]
          exact contains_false_not_mem _ _ hc
      constructor
      · intro c hc x hx
        rcases List.mem_append.mp hc with h | h
        · exact List.mem_append.mpr (Or.inl (hsub c h x hx))
        · have : c = { name := generateClusterTheme _,
                       ideaIds := _, theme := _, color := _ } := List.mem_singleton.mp h
          subst this
          exact List.mem_append.mpr (Or.inr hx)
      · rw [List.pairwise_append]
        refine ⟨hpw, List.pairwise_singleton _ _, ?_⟩
        intro a ha b hb
        have hb' := List.mem_singleton.mp hb
        subst hb'
        intro x hxa
        intro hxb
        exact hfresh x hxb (hsub a ha x hxa)

/-- C9: for every idea list with pairwise distinct ids (and in fact for every
idea list and every behaviour of the fuzzy-search collaborator), the clusters
returned by `findClusters` are pairwise disjoint on idea ids: no id occurs in
two different clusters, so each idea lands in at most one cluster. -/
theorem c9_clusters_pairwise_disjoint (ideas : List IdeaRec)
    (search : IdeaRec → List IdeaRec)
    (_hids : (ideas.map (fun i => i.id)).Nodup) :
    List.Pairwise ClusterDisj (findClusters ideas search) := by
  unfold findClusters
  split
  · exact List.Pairwise.nil
  · have main : ∀ (l : List IdeaRec) (acc : List IdeaCluster × List String),
        (∀ c ∈ acc.1, ∀ x ∈ c.ideaIds, x ∈ acc.2) →
        List.Pairwise ClusterDisj acc.1 →
        List.Pairwise ClusterDisj (l.foldl (findClustersStep search) acc).1 := by
      intro l
      induction l with
      | nil =>
        intro acc _ h2
        exact h2
      | cons i t ih =>
        intro acc h1 h2
        simp only [List.foldl_cons]
        exact ih _ (findClustersStep_inv search acc i h1 h2).1
          (findClustersStep_inv search acc i h1 h2).2
    exact main ideas ([], []) (by simp) List.Pairwise.nil

theorem c9_witness :
    List.Pairwise ClusterDisj (findClusters
      [{ id := "a", title := "Bakery", description := "bread", category := "business",
         tags := ["food-service"] },
       { id := "b", title := "Bakery shop", description := "bread shop",
         category := "business", tags := ["food-service"] },
       { id := "c", title := "Game", description := "fun", category := "entertainment",
         tags := [] }]
      (fun i => if i.id = "a" then
        [{ id := "b", title := "Bakery shop", description := "bread shop",
           category := "business", tags := ["food-service"] }]
        else [])) :=
  c9_clusters_pairwise_disjoint _ _ (by decide)
